import Mathlib

/-!
Verification of the salaysay document-intake pipeline.

This file gives a shallow embedding of the text-processing core of the
repository: the rule-based violation classifier, the legacy category
normalization, the translation fallback contract, the language detector,
the sentence extraction, the PDF text cleanup, and the Tagalog date
extraction.  Strings are modelled as Lean `String`s, with the JavaScript
primitives (`includes`, `toLowerCase`, `trim`) re-implemented as
executable functions over the underlying character lists.
-/

namespace Salaysay

/-- Does `pat` occur at the head of `s`?  This is the single-position step
of the substring search underlying the JavaScript `String.includes`. -/
def leadsWith : List Char → List Char → Bool
  | [], _ => true
  | _ :: _, [] => false
  | p :: ps, c :: cs => p == c && leadsWith ps cs

/-- `occursIn pat s` models the JavaScript `s.includes(pat)` substring test:
`pat` occurs contiguously somewhere inside `s`. -/
def occursIn (pat : List Char) : List Char → Bool
  | [] => leadsWith pat []
  | c :: cs => leadsWith pat (c :: cs) || occursIn pat cs

/-- JavaScript `s.includes(pat)` on Lean strings. -/
def includes (s pat : String) : Bool := occursIn pat.data s.data

/-- JavaScript `toLowerCase`, character by character (all source keywords are
ASCII, where `Char.toLower` agrees with the JavaScript conversion). -/
def lowerStr (s : String) : String := String.mk (s.data.map Char.toLower)

/-- A pattern that occurs in a string forces the string to be non-nil. -/
theorem occursIn_ne_nil {pat s : List Char} (hp : pat ≠ []) (h : occursIn pat s = true) :
    s ≠ [] := by
  intro hs
  subst hs
  cases pat with
  | nil => exact hp rfl
  | cons p ps => simp [occursIn, leadsWith] at h

/-- The closed enumeration of violation categories from `database.types.ts`. -/
inductive ViolationType where
  | other
  | behavioralIssue
  | dressCodeViolation
  | academicMisconduct
  | propertyDamage
  | attendanceIssue
  deriving DecidableEq

/-- The property-damage keyword list of `determineViolationType.ts`. -/
def propertyDamageKeywords : List String :=
  ["damage", "damaged", "broke", "breaking", "broken",
   "destroy", "destroyed", "vandal", "graffiti",
   "spill", "spilled", "stain", "property",
   "equipment", "chair", "table", "desk", "window", "computer",
   "laboratory", "accidentally breaking", "broke the", "damaged the",
   "cracked", "shattered", "tore", "ripped", "scratched"]

/-- The attendance keyword list of `determineViolationType.ts`. -/
def attendanceKeywords : List String :=
  ["absent", "absence", "attendance", "missed class",
   "not present", "couldn't attend", "couldn't make it",
   "failed to attend", "unable to join", "skipped class", "skip class",
   "late", "tardy", "didn't show up", "no show",
   "not in class", "missing from class", "wasn't in class"]

/-- The academic-misconduct keyword list of `determineViolationType.ts`. -/
def academicMisconductKeywords : List String :=
  ["plagiarism", "plagiarize", "plagiarized", "copied",
   "cheat", "cheating", "cheated", "academic dishonesty",
   "academic misconduct", "test", "exam", "quiz",
   "academic integrity", "answers", "assignment", "homework",
   "paper", "thesis", "dissertation", "unauthorized help",
   "unauthorized source", "unauthorized material"]

/-- The behavioral keyword list of `determineViolationType.ts`. -/
def behavioralKeywords : List String :=
  ["behavior", "behaviour", "misbehave", "misbehavior",
   "disrupt", "disruption", "inappropriate",
   "disrespect", "disrespectful", "conduct", "misconduct",
   "disturbing class", "talking", "noise", "outburst",
   "rude", "impolite", "disorderly", "unruly", "aggressive",
   "argument", "shouting", "disruptive", "phone use", "using phone"]

/-- The dress-code keyword list of `determineViolationType.ts`. -/
def dressCodeKeywords : List String :=
  ["uniform", "dress code", "attire", "clothing",
   "dress policy", "improper dress", "inappropriate clothing",
   "not wearing", "shoes", "shirt", "pants", "id",
   "identification", "badge", "required attire",
   "inappropriate outfit", "dress requirement", "improper uniform"]

/-- `keywords.some(keyword => s.includes(keyword))` from the source. -/
def kwAny (ks : List String) (s : String) : Bool := ks.any (fun k => includes s k)

/-- The extra damage-action co-occurrence gate applied to the excuse summary
(lines 119-134 of `determineViolationType.ts`). -/
def pdGateExcuse (e : String) : Bool :=
  includes e ("breaking") ||
  includes e ("broke") ||
  includes e ("damage") ||
  includes e ("destroy") ||
  (includes e ("chair") &&
    (includes e ("accident") || includes e ("broke") || includes e ("damage"))) ||
  (includes e ("laboratory") &&
    (includes e ("accident") || includes e ("broke") || includes e ("damage")))

/-- The context gate of the full-text property-damage check
(lines 173-182 of `determineViolationType.ts`). -/
def pdGateText (t : String) : Bool :=
  (includes t ("break") && includes t ("chair")) ||
  (includes t ("damage") && includes t ("property")) ||
  (includes t ("broke") &&
    (includes t ("window") || includes t ("chair") ||
     includes t ("desk") || includes t ("equipment")))

/-- The excuse-summary classification pass (lines 114-165 of
`determineViolationType.ts`): each early `return` becomes `some _`, and
falling through the whole block becomes `none`. -/
def excusePass (e : String) : Option ViolationType :=
  if kwAny propertyDamageKeywords e && pdGateExcuse e then some ViolationType.propertyDamage
  else if kwAny attendanceKeywords e then some ViolationType.attendanceIssue
  else if kwAny academicMisconductKeywords e then some ViolationType.academicMisconduct
  else if kwAny behavioralKeywords e && !kwAny propertyDamageKeywords e then
    some ViolationType.behavioralIssue
  else if kwAny dressCodeKeywords e then some ViolationType.dressCodeViolation
  else none

/-- The full-text classification pass (lines 171-208 of
`determineViolationType.ts`), operating on the classifier's `violationType`
variable initialized to `Other`. -/
def fullTextPass (t : String) : ViolationType :=
  if kwAny propertyDamageKeywords t then
    (if pdGateText t then ViolationType.propertyDamage else ViolationType.other)
  else if kwAny attendanceKeywords t then ViolationType.attendanceIssue
  else if kwAny academicMisconductKeywords t then ViolationType.academicMisconduct
  else if kwAny behavioralKeywords t then
    (if !kwAny propertyDamageKeywords t then ViolationType.behavioralIssue
     else ViolationType.other)
  else if kwAny dressCodeKeywords t then ViolationType.dressCodeViolation
  else ViolationType.other

/-- `determineViolationType` from `determineViolationType.ts`, as a function
of the lower-case processed inputs: `extractedText` (full text) and the
excuse text under analysis (`natureOfExcuse`, already translated to English
for Tagalog documents).  The JavaScript `if (excuseLower)` truthiness test
is the emptiness test on the lowered excuse. -/
def determineViolationType (extractedText natureOfExcuse : String) : ViolationType :=
  if lowerStr natureOfExcuse = "" then fullTextPass (lowerStr extractedText)
  else
    match excusePass (lowerStr natureOfExcuse) with
    | some v => v
    | none => fullTextPass (lowerStr extractedText)

/-- A string passing the excuse-level damage gate is not empty. -/
theorem pdGateExcuse_ne_empty {e : String} (h : pdGateExcuse e = true) : e ≠ "" := by
  intro he
  subst he
  exact absurd h (by decide)

/-- Claim C1: whenever the lower-cased excuse summary contains a
property-damage keyword and satisfies the damage-action co-occurrence gate,
the classifier returns Property Damage, before any other category is
considered. -/
theorem excuse_property_damage_shortcircuits (textArg excuseArg : String)
    (hkw : kwAny propertyDamageKeywords (lowerStr excuseArg) = true)
    (hgate : pdGateExcuse (lowerStr excuseArg) = true) :
    determineViolationType textArg excuseArg = ViolationType.propertyDamage := by
  unfold determineViolationType
  rw [if_neg (pdGateExcuse_ne_empty hgate)]
  simp [excusePass, hkw, hgate]

/-- Claim C1 witness: the laboratory-chair excuse from the specification is
classified Property Damage (and Property Damage is not Behavioral Issue). -/
theorem excuse_property_damage_example :
    determineViolationType ("")
      ("I apologize for breaking the chair in the laboratory by accident.") =
      ViolationType.propertyDamage ∧
    ViolationType.propertyDamage ≠ ViolationType.behavioralIssue :=
  ⟨excuse_property_damage_shortcircuits ("")
      ("I apologize for breaking the chair in the laboratory by accident.")
      (by decide) (by decide),
   by decide⟩

/-- A string on which some keyword of `ks` matches is not empty, given that
no keyword of `ks` matches the empty string. -/
theorem kwAny_ne_empty {ks : List String} {e : String} (h : kwAny ks e = true)
    (hk : kwAny ks "" = false) : e ≠ "" := by
  intro he
  subst he
  rw [h] at hk
  exact Bool.noConfusion hk

/-- Claim C4: in the excuse-summary pass, after the property-damage,
attendance and academic checks have failed, a behavioral keyword yields
Behavioral Issue exactly when no property-damage keyword is present; the
excuse pass never classifies Behavioral Issue while a property-damage
keyword occurs in the excuse. -/
theorem excuse_behavioral_requires_no_damage (textArg excuseArg : String) :
    (kwAny behavioralKeywords (lowerStr excuseArg) = true →
      kwAny attendanceKeywords (lowerStr excuseArg) = false →
      kwAny academicMisconductKeywords (lowerStr excuseArg) = false →
      kwAny propertyDamageKeywords (lowerStr excuseArg) = false →
      determineViolationType textArg excuseArg = ViolationType.behavioralIssue) ∧
    (∀ e : String, excusePass e = some ViolationType.behavioralIssue →
      kwAny propertyDamageKeywords e = false) := by
  constructor
  · intro hb hatt hacad hpd
    unfold determineViolationType
    rw [if_neg (kwAny_ne_empty hb (by decide))]
    simp [excusePass, hpd, hatt, hacad, hb]
  · intro e h
    by_cases hpd : kwAny propertyDamageKeywords e = true
    · exfalso
      cases hg : pdGateExcuse e <;> cases ha : kwAny attendanceKeywords e <;>
        cases hc : kwAny academicMisconductKeywords e <;>
        cases hd : kwAny dressCodeKeywords e <;>
        simp [excusePass, hpd, hg, ha, hc, hd] at h
    · simpa using hpd

/-- Claim C4 witness: a purely behavioral excuse is classified Behavioral
Issue, and an excuse-pass Behavioral Issue answer certifies the absence of
property-damage keywords. -/
theorem excuse_behavioral_requires_no_damage_example :
    determineViolationType ("") ("He was very rude.") = ViolationType.behavioralIssue ∧
    kwAny propertyDamageKeywords ("he was very rude.") = false :=
  ⟨(excuse_behavioral_requires_no_damage ("") ("He was very rude.")).1
      (by decide) (by decide) (by decide) (by decide),
   (excuse_behavioral_requires_no_damage ("") ("He was very rude.")).2
      ("he was very rude.") (by decide)⟩

/-- Claim C9: in the full-text pass (reached only when the excuse pass found
nothing), a property-damage keyword that fails the context gate makes the
classifier return Other outright; the attendance, academic, behavioral and
dress-code checks of that pass are skipped. -/
theorem fulltext_damage_gate_fail_returns_other (textArg excuseArg : String)
    (hex : excusePass (lowerStr excuseArg) = none)
    (hkw : kwAny propertyDamageKeywords (lowerStr textArg) = true)
    (hgate : pdGateText (lowerStr textArg) = false) :
    determineViolationType textArg excuseArg = ViolationType.other := by
  unfold determineViolationType
  by_cases he : lowerStr excuseArg = ""
  · rw [if_pos he]
    simp [fullTextPass, hkw, hgate]
  · rw [if_neg he, hex]
    simp [fullTextPass, hkw, hgate]

/-- Claim C9 witness: "the chair was absent" has a property-damage keyword
(chair) that fails the context gate, so the classifier answers Other even
though an attendance keyword (absent) occurs in the text. -/
theorem fulltext_damage_gate_fail_example :
    determineViolationType ("the chair was absent") ("") = ViolationType.other ∧
    kwAny attendanceKeywords (lowerStr ("the chair was absent")) = true :=
  ⟨fulltext_damage_gate_fail_returns_other ("the chair was absent") ("")
      (by decide) (by decide) (by decide),
   by decide⟩

/-- The two-valued language tag of `extractDocumentInfo.ts`. -/
inductive Language where
  | english
  | tagalog
  deriving DecidableEq

/-- The `DocumentInfo` record of `extractDocumentInfo.ts`; optional fields
are `Option`s. -/
structure DocumentInfo where
  extractedText : String
  studentId : Option String
  studentName : Option String
  courseCode : Option String
  violationType : Option ViolationType
  pdfTitle : Option String
  natureOfExcuse : Option String
  submissionDate : Option String
  addressee : Option String
  sectionName : Option String
  language : Option Language

/-- `determineViolationType` on a whole `DocumentInfo` (lines 47-66 of
`determineViolationType.ts`): for a Tagalog document with a truthy excuse,
the excuse is first run through the translation service, modelled by the
oracle `tr`; otherwise the raw excuse (or the empty string) is analyzed. -/
def determineViolationTypeDoc (tr : String → String) (d : DocumentInfo) : ViolationType :=
  match d.natureOfExcuse with
  | none => determineViolationType d.extractedText ("")
  | some s =>
    if d.language = some Language.tagalog ∧ s ≠ "" then
      determineViolationType d.extractedText (tr s)
    else
      determineViolationType d.extractedText s

/-- `enhanceDocumentInfo` (lines 234-253 of `determineViolationType.ts`):
spread the input record and overwrite `violationType` with the classifier
result. -/
def enhanceDocumentInfo (tr : String → String) (d : DocumentInfo) : DocumentInfo :=
  { d with violationType := some (determineViolationTypeDoc tr d) }

/-- Claim C10: `enhanceDocumentInfo` preserves every field of the input
record except `violationType`, which it assigns from the classifier. -/
theorem enhance_preserves_all_other_fields (tr : String → String) (d : DocumentInfo) :
    (enhanceDocumentInfo tr d).extractedText = d.extractedText ∧
    (enhanceDocumentInfo tr d).studentId = d.studentId ∧
    (enhanceDocumentInfo tr d).studentName = d.studentName ∧
    (enhanceDocumentInfo tr d).courseCode = d.courseCode ∧
    (enhanceDocumentInfo tr d).pdfTitle = d.pdfTitle ∧
    (enhanceDocumentInfo tr d).natureOfExcuse = d.natureOfExcuse ∧
    (enhanceDocumentInfo tr d).submissionDate = d.submissionDate ∧
    (enhanceDocumentInfo tr d).addressee = d.addressee ∧
    (enhanceDocumentInfo tr d).sectionName = d.sectionName ∧
    (enhanceDocumentInfo tr d).language = d.language ∧
    (enhanceDocumentInfo tr d).violationType = some (determineViolationTypeDoc tr d) :=
  ⟨rfl, rfl, rfl, rfl, rfl, rfl, rfl, rfl, rfl, rfl, rfl⟩

/-- The list of valid violation types of `analyzeFile` in `FileExplorer.tsx`. -/
def validViolationTypes : List String :=
  ["Other", "Behavioral Issue", "Dress Code Violation", "Academic Misconduct",
   "Property Damage", "Attendance Issue"]

/-- `extractedInfo.violationType || "Other"`: a missing or empty category
string becomes the string Other. -/
def normalizeStep1 (v : Option String) : String :=
  match v with
  | none => "Other"
  | some t => if t = "" then "Other" else t

/-- The legacy remapping block of `analyzeFile`: members of the valid list
pass through, Academic and Attendance are remapped, anything else becomes
Other. -/
def normalizeStep2 (s : String) : String :=
  if s ∈ validViolationTypes then s
  else if s = "Academic" then "Academic Misconduct"
  else if s = "Attendance" then "Attendance Issue"
  else "Other"

/-- The legacy category normalization of `FileExplorer.tsx` lines 681-710:
the truthiness default, the remapping block, and the final membership
guard. -/
def normalizeViolationType (v : Option String) : String :=
  if normalizeStep2 (normalizeStep1 v) ∈ validViolationTypes then
    normalizeStep2 (normalizeStep1 v)
  else "Other"

/-- The normalization result is always one of the six valid categories. -/
theorem normalize_mem (v : Option String) :
    normalizeViolationType v ∈ validViolationTypes := by
  unfold normalizeViolationType
  split
  · assumption
  · decide

/-- Claim C2: the legacy normalization is a total function into the
six-member enum; strings already in the set are kept, Academic and
Attendance are remapped, and everything else (missing input included) maps
to Other. -/
theorem normalize_legacy_total (v : Option String) :
    normalizeViolationType v ∈ validViolationTypes ∧
    (∀ s : String, v = some s → s ∈ validViolationTypes → normalizeViolationType v = s) ∧
    (v = some ("Academic") → normalizeViolationType v = "Academic Misconduct") ∧
    (v = some ("Attendance") → normalizeViolationType v = "Attendance Issue") ∧
    (v = none → normalizeViolationType v = "Other") ∧
    (∀ s : String, v = some s → s ∉ validViolationTypes → s ≠ "Academic" →
      s ≠ "Attendance" → normalizeViolationType v = "Other") := by
  refine ⟨normalize_mem v, ?_, ?_, ?_, ?_, ?_⟩
  · intro s hv hmem
    subst hv
    have hne : s ≠ "" := by
      rintro rfl
      exact absurd hmem (by decide)
    have h1 : normalizeStep1 (some s) = s := by simp [normalizeStep1, hne]
    have h2 : normalizeStep2 s = s := by simp [normalizeStep2, hmem]
    unfold normalizeViolationType
    rw [h1, h2, if_pos hmem]
  · rintro rfl
    decide
  · rintro rfl
    decide
  · rintro rfl
    decide
  · intro s hv hmem hA hT
    subst hv
    by_cases hne : s = ""
    · subst hne
      decide
    · have h1 : normalizeStep1 (some s) = s := by simp [normalizeStep1, hne]
      have h2 : normalizeStep2 s = "Other" := by
        unfold normalizeStep2
        rw [if_neg hmem, if_neg hA, if_neg hT]
      unfold normalizeViolationType
      rw [h1, h2]
      decide

/-- Claim C2 witness: the normalization evaluated on a kept member, the two
legacy strings, a missing value and an unknown string. -/
theorem normalize_legacy_total_example :
    normalizeViolationType (some ("Academic")) = "Academic Misconduct" ∧
    normalizeViolationType (some ("Attendance")) = "Attendance Issue" ∧
    normalizeViolationType (some ("Property Damage")) = "Property Damage" ∧
    normalizeViolationType none = "Other" ∧
    normalizeViolationType (some ("Unknown Category")) = "Other" :=
  ⟨(normalize_legacy_total (some ("Academic"))).2.2.1 rfl,
   (normalize_legacy_total (some ("Attendance"))).2.2.2.1 rfl,
   (normalize_legacy_total (some ("Property Damage"))).2.1 ("Property Damage") rfl (by decide),
   (normalize_legacy_total none).2.2.2.2.1 rfl,
   (normalize_legacy_total (some ("Unknown Category"))).2.2.2.2.2 ("Unknown Category") rfl
     (by decide) (by decide) (by decide)⟩

/-- The fixed Tagalog marker phrases of `detectLanguage` in
`extractDocumentInfo.ts`. -/
def tagalogPhrases : List String :=
  ["Kapatid na", "inyong", "Kapatid sa", "Pangino", "Petsa", "Seksyon",
   "Kurso", "Numero ng Mag-aaral"]

/-- The number of distinct Tagalog markers occurring in `text` under
case-insensitive substring matching (the `filter(...).length` of
`detectLanguage`). -/
def tagalogMatches (text : String) : Nat :=
  (tagalogPhrases.filter (fun p => includes (lowerStr text) (lowerStr p))).length

/-- `detectLanguage` from `extractDocumentInfo.ts`: at least two markers
mean Tagalog, otherwise English. -/
def detectLanguage (text : String) : Language :=
  if 2 ≤ tagalogMatches text then Language.tagalog else Language.english

/-- Claim C5: the detector answers Tagalog exactly when at least 2 distinct
markers of its (duplicate-free) fixed list occur in the text, and English
exactly when 0 or 1 occur. -/
theorem detectLanguage_marker_threshold (text : String) :
    (detectLanguage text = Language.tagalog ↔ 2 ≤ tagalogMatches text) ∧
    (detectLanguage text = Language.english ↔ tagalogMatches text ≤ 1) ∧
    tagalogPhrases.Nodup := by
  refine ⟨?_, ?_, by decide⟩
  · constructor
    · intro hd
      by_contra hlt
      simp [detectLanguage, hlt] at hd
    · intro hle
      simp [detectLanguage, hle]
  · constructor
    · intro hd
      by_cases h2 : 2 ≤ tagalogMatches text
      · simp [detectLanguage, h2] at hd
      · omega
    · intro hle
      have h2 : ¬ 2 ≤ tagalogMatches text := by omega
      simp [detectLanguage, h2]

/-- JavaScript whitespace (the characters relevant to this code base) for
`trim`. -/
def isWsChar (c : Char) : Bool :=
  c == ' ' || c == '\t' || c == '\n' || c == '\r'

/-- JavaScript `s.trim()`. -/
def jsTrim (s : String) : String :=
  String.mk (((s.data.dropWhile isWsChar).reverse.dropWhile isWsChar).reverse)

/-- The parsed JSON body of a MyMemory translation response: an optional
numeric `responseStatus`, and `responseData` which may be absent (outer
`Option`) and whose `translatedText` may be absent (inner `Option`). -/
structure TransData where
  responseStatus : Option Nat
  responseData : Option (Option String)

/-- The outcome of the `fetch` call in `translateTagalogToEnglish`: a thrown
network error, a response with `ok` false, a body that fails JSON parsing,
or a parsed body. -/
inductive FetchOutcome where
  | networkError
  | httpNotOk (status : Nat)
  | jsonError
  | success (data : TransData)

/-- `translateTagalogToEnglish` from `determineViolationType.ts` lines
10-41: empty or whitespace-only input returns the empty string before any
request is made; a thrown error, a non-ok status or an unparseable body
returns the original text; a parsed body with `responseStatus` 200 and a
present `responseData` returns `translatedText || text`; any other parsed
body returns the original text. -/
def translateTagalogToEnglish (outcome : FetchOutcome) (text : String) : String :=
  if text = "" ∨ jsTrim text = "" then ""
  else
    match outcome with
    | FetchOutcome.networkError => text
    | FetchOutcome.httpNotOk _ => text
    | FetchOutcome.jsonError => text
    | FetchOutcome.success data =>
      if data.responseStatus = some 200 ∧ data.responseData.isSome = true then
        match data.responseData with
        | some (some t) => if t = "" then text else t
        | some none => text
        | none => text
      else text

/-- Claim C3 counterexample: the single-space input is a non-empty string,
yet on a thrown network error the translator returns the empty string, not
the original input unchanged. -/
theorem translate_space_not_identity :
    translateTagalogToEnglish FetchOutcome.networkError (" ") = "" ∧ (" " : String) ≠ "" := by
  constructor
  · decide
  · decide

/-- Claim C3 amended: for every input that is non-empty after trimming
whitespace, the translator returns the original text on a thrown network
error, a non-200 HTTP status, a malformed body and an incomplete parsed
body, and otherwise returns the non-empty translated text of a well-formed
response (an empty or missing `translatedText` again yields the original
text). -/
theorem translate_failure_returns_original (text : String) (h : jsTrim text ≠ "") :
    translateTagalogToEnglish FetchOutcome.networkError text = text ∧
    (∀ s : Nat, translateTagalogToEnglish (FetchOutcome.httpNotOk s) text = text) ∧
    translateTagalogToEnglish FetchOutcome.jsonError text = text ∧
    (∀ d : TransData, d.responseStatus ≠ some 200 ∨ d.responseData = none →
      translateTagalogToEnglish (FetchOutcome.success d) text = text) ∧
    (∀ t : String, t ≠ "" →
      translateTagalogToEnglish (FetchOutcome.success ⟨some 200, some (some t)⟩) text = t) ∧
    translateTagalogToEnglish (FetchOutcome.success ⟨some 200, some (some (""))⟩) text = text ∧
    translateTagalogToEnglish (FetchOutcome.success ⟨some 200, some none⟩) text = text := by
  have hcond : ¬(text = "" ∨ jsTrim text = "") := by
    rintro (rfl | hx)
    · exact h rfl
    · exact h hx
  refine ⟨?_, ?_, ?_, ?_, ?_, ?_, ?_⟩
  · simp only [translateTagalogToEnglish, if_neg hcond]
  · intro s
    simp only [translateTagalogToEnglish, if_neg hcond]
  · simp only [translateTagalogToEnglish, if_neg hcond]
  · intro d hd
    have hcond2 : ¬(d.responseStatus = some 200 ∧ d.responseData.isSome = true) := by
      rcases hd with h1 | h2
      · rintro ⟨ha, _⟩
        exact h1 ha
      · rintro ⟨_, hb⟩
        rw [h2] at hb
        exact Bool.noConfusion hb
    simp only [translateTagalogToEnglish, if_neg hcond, if_neg hcond2]
  · intro t ht
    simp [translateTagalogToEnglish, hcond, ht]
  · simp [translateTagalogToEnglish, hcond]
  · simp [translateTagalogToEnglish, hcond]

/-- Claim C3 amended witness: the failure modes and the translation case
evaluated on a concrete Tagalog input. -/
theorem translate_failure_returns_original_example :
    translateTagalogToEnglish FetchOutcome.networkError ("kumusta ka") = "kumusta ka" ∧
    translateTagalogToEnglish (FetchOutcome.httpNotOk 400) ("kumusta ka") = "kumusta ka" ∧
    translateTagalogToEnglish FetchOutcome.jsonError ("kumusta ka") = "kumusta ka" ∧
    translateTagalogToEnglish (FetchOutcome.success ⟨some 200, some (some ("how are you"))⟩)
      ("kumusta ka") = "how are you" :=
  ⟨(translate_failure_returns_original ("kumusta ka") (by decide)).1,
   (translate_failure_returns_original ("kumusta ka") (by decide)).2.1 400,
   (translate_failure_returns_original ("kumusta ka") (by decide)).2.2.1,
   (translate_failure_returns_original ("kumusta ka") (by decide)).2.2.2.2.1
     ("how are you") (by decide)⟩

/-- Replacement text for one maximal run of `n` newlines under
`replace(/\n{3,}/g, '\n\n')`: three or more newlines become two, shorter
runs are kept. -/
def emitNl (n : Nat) : List Char :=
  List.replicate (if 3 ≤ n then 2 else n) '\n'

/-- Scan for `replace(/\n{3,}/g, '\n\n')`, carrying the length of the
pending newline run. -/
def squashNlAux : List Char → Nat → List Char
  | [], n => emitNl n
  | c :: cs, n =>
    if c == '\n' then squashNlAux cs (n + 1)
    else emitNl n ++ c :: squashNlAux cs 0

/-- `replace(/\n{3,}/g, '\n\n')`. -/
def squashNl (l : List Char) : List Char := squashNlAux l 0

/-- Replacement text for one maximal whitespace run under
`replace(/\s{2,}/g, ' ')`: two or more whitespace characters become one
space, a single whitespace character is kept as itself. -/
def emitWs (pending : List Char) : List Char :=
  if 2 ≤ pending.length then [' '] else pending

/-- Scan for `replace(/\s{2,}/g, ' ')`, carrying the pending whitespace
run. -/
def squashWsAux : List Char → List Char → List Char
  | [], pending => emitWs pending
  | c :: cs, pending =>
    if isWsChar c then squashWsAux cs (pending ++ [c])
    else emitWs pending ++ c :: squashWsAux cs []

/-- `replace(/\s{2,}/g, ' ')`.  Note that the `\s` class matches newlines,
not just spaces. -/
def squashWs (l : List Char) : List Char := squashWsAux l []

/-- `extractPdfText` from `extractPdfText.ts`, as a function of the
per-page text strings produced by the glyph loop (lines 26-84): each page
contributes its text plus an extra `"\n\n"`, then the cleanup replaces runs
of 3 or more newlines by 2, replaces runs of 2 or more whitespace
characters by one space, and trims; an empty result is replaced by the
no-text sentinel string. -/
def extractPdfText (pages : List String) : String :=
  let fullText := String.join (pages.map (fun p => p ++ "\n\n"))
  let cleaned := jsTrim (String.mk (squashWs (squashNl fullText.data)))
  if cleaned = "" then "No text content could be extracted from this PDF."
  else cleaned

/-- Claim C7 evaluation: the `\s{2,}` replacement runs after the newline
collapsing and matches newlines as well, so the blank line inserted between
pages and every two-newline paragraph break end up as a single space in the
returned string, contrary to the stated contract. -/
theorem extractPdfText_page_separator_collapsed :
    extractPdfText [("A"), ("B")] = "A B" ∧
    extractPdfText [("A"), ("B")] ≠ "A\n\nB" ∧
    extractPdfText [("line1\n\n\nline2")] = "line1 line2" := by
  refine ⟨by decide, by decide, by decide⟩

/-- Sentence-ending characters of the `[.!?]+["']?\s` pattern in
`extractFirstSentences`. -/
def isEnder (c : Char) : Bool := c == '.' || c == '!' || c == '?'

/-- The optional quote characters of the pattern. -/
def isQuoteChar (c : Char) : Bool := c == Char.ofNat 34 || c == Char.ofNat 39

/-- Length of the leading run of sentence-ending characters. -/
def enderRun : List Char → Nat
  | [] => 0
  | c :: cs => if isEnder c then enderRun cs + 1 else 0

/-- The length of the regex match of `[.!?]+["']?\s` anchored at the head
of `l`, if any.  The `+` is greedy; shorter ender runs need not be tried,
because the characters they would hand to `["']?\s` are ender characters,
which are neither quotes nor whitespace. -/
def matchEndAt (l : List Char) : Option Nat :=
  let k := enderRun l
  if k = 0 then none
  else
    match l.drop k with
    | [] => none
    | c :: rest =>
      if isQuoteChar c then
        match rest with
        | [] => none
        | c2 :: _ => if isWsChar c2 then some (k + 2) else none
      else if isWsChar c then some (k + 1)
      else none

/-- Left-to-right scan collecting all non-overlapping matches as
(index, length) pairs, resuming after each match, as
`text.matchAll(pattern)` does.  The fuel argument only bounds recursion
and is instantiated with the text length. -/
def scanMatchesAux : Nat → List Char → Nat → List (Nat × Nat)
  | 0, _, _ => []
  | _ + 1, [], _ => []
  | fuel + 1, c :: cs, i =>
    match matchEndAt (c :: cs) with
    | some len => (i, len) :: scanMatchesAux fuel ((c :: cs).drop len) (i + len)
    | none => scanMatchesAux fuel cs (i + 1)

/-- All matches of the sentence-boundary pattern in `text`. -/
def boundaryMatches (text : String) : List (Nat × Nat) :=
  scanMatchesAux text.data.length text.data 0

/-- `extractFirstSentences` from `extractDocumentInfo.ts` lines 64-85:
take the prefix ending at the `min maxSentences matches.length`-th match
and trim it; with no match, return the text, truncated to 147 characters
plus an ellipsis when longer than 150 characters. -/
def extractFirstSentences (text : String) (maxSentences : Nat) : String :=
  if text = "" then ""
  else
    match boundaryMatches text with
    | [] =>
      if 150 < text.data.length then String.mk (text.data.take 147) ++ "..."
      else text
    | m :: ms =>
      let n := min maxSentences (m :: ms).length
      let e := (m :: ms).getD (n - 1) (0, 0)
      jsTrim (String.mk (text.data.take (e.1 + e.2)))

/-- Claim C8: with at least two sentence-boundary matches the extraction
returns the trimmed prefix of the body ending at the second match (the
second sentence's terminal punctuation with its optional quote and
following whitespace, then trimmed); with exactly one match it returns the
trimmed prefix ending at that match; with no match at all it returns the
body, truncated to 147 characters plus an ellipsis exactly when the body
exceeds 150 characters. -/
theorem extractFirstSentences_spec (text : String) (hne : text ≠ "") :
    (∀ m0 m1 ms, boundaryMatches text = m0 :: m1 :: ms →
      extractFirstSentences text 2 = jsTrim (String.mk (text.data.take (m1.1 + m1.2)))) ∧
    (∀ m0, boundaryMatches text = [m0] →
      extractFirstSentences text 2 = jsTrim (String.mk (text.data.take (m0.1 + m0.2)))) ∧
    (boundaryMatches text = [] →
      extractFirstSentences text 2 =
        (if 150 < text.data.length then String.mk (text.data.take 147) ++ "..."
         else text)) := by
  refine ⟨?_, ?_, ?_⟩
  · intro m0 m1 ms hm
    have hmin : min 2 ((m1 :: ms).length + 1) = 2 := by
      simp only [List.length_cons]
      omega
    unfold extractFirstSentences
    rw [if_neg hne, hm]
    simp [hmin, List.getD]
  · intro m0 hm
    unfold extractFirstSentences
    rw [if_neg hne, hm]
    simp [List.getD]
  · intro hm
    unfold extractFirstSentences
    rw [if_neg hne, hm]

/-- Claim C8 witness: a three-sentence body yields exactly the first two
sentences, ending at the second terminal punctuation. -/
theorem extractFirstSentences_example :
    extractFirstSentences ("First one. Second two. Third three.") 2 =
      "First one. Second two." := by
  rw [(extractFirstSentences_spec ("First one. Second two. Third three.")
        (by decide)).1 (9, 2) (21, 2) [] (by decide)]
  decide

/-- A calendar date as recovered by the date parsing: month (1-12), day,
year. -/
structure DateT where
  month : Nat
  day : Nat
  year : Nat
  deriving DecidableEq

/-- The English month names of the date library's default locale; these are
the only names `parse(_, 'MMMM _, yyyy', _)` recognizes. -/
def monthNamesEn : List String :=
  ["January", "February", "March", "April", "May", "June", "July",
   "August", "September", "October", "November", "December"]

/-- The abbreviated English month names, tried after the full names. -/
def monthAbbrevEn : List String :=
  ["Jan", "Feb", "Mar", "Apr", "May", "Jun", "Jul", "Aug", "Sep", "Oct",
   "Nov", "Dec"]

/-- Try each name in order as a case-insensitive head of `l`; on success
return its 1-based position in the original list and the rest of `l`. -/
def monthFromNames : List String → Nat → List Char → Option (Nat × List Char)
  | [], _, _ => none
  | name :: rest, i, l =>
    if leadsWith (lowerStr name).data (l.map Char.toLower) then
      some (i, l.drop name.data.length)
    else monthFromNames rest (i + 1) l

/-- The month-name recognition of the parse library: full English names
first, then the three-letter abbreviations.  A Tagalog name such as
"Abril" matches neither list. -/
def parseMonthEn (l : List Char) : Option (Nat × List Char) :=
  match monthFromNames monthNamesEn 1 l with
  | some r => some r
  | none => monthFromNames monthAbbrevEn 1 l

/-- Split off at most `n` leading decimal digits. -/
def splitDigits : Nat → List Char → List Char × List Char
  | 0, l => ([], l)
  | _ + 1, [] => ([], [])
  | n + 1, c :: cs =>
    if c.isDigit then
      let r := splitDigits n cs
      (c :: r.1, r.2)
    else ([], c :: cs)

/-- Numeric value of a digit string. -/
def digitsToNat (ds : List Char) : Nat :=
  ds.foldl (fun a c => a * 10 + (c.toNat - 48)) 0

/-- Model of `parse(s, 'MMMM d, yyyy' / 'MMMM d yyyy', ref)`: a recognized
English month name, a space, a 1-2 digit day in 1..31, the comma when the
format has one, a space, and a four-digit year consuming the rest of the
string; anything else is an invalid date. -/
def parseMonthDayYear (withComma : Bool) (s : String) : Option DateT :=
  match parseMonthEn s.data with
  | none => none
  | some (m, r1) =>
    match r1 with
    | ' ' :: r2 =>
      let pd := splitDigits 2 r2
      match pd.1 with
      | [] => none
      | dds =>
        let day := digitsToNat dds
        if day < 1 ∨ 31 < day then none
        else
          match (if withComma then
                   (match pd.2 with | ',' :: t => some t | _ => none)
                 else some pd.2) with
          | none => none
          | some r5 =>
            match r5 with
            | ' ' :: r6 =>
              let py := splitDigits 4 r6
              if py.1.length = 4 ∧ py.2 = [] then some ⟨m, day, digitsToNat py.1⟩
              else none
            | _ => none
    | _ => none

/-- The anchored shape test `/^\d{1,2}\/\d{1,2}\/\d{4}$/` of line 264. -/
def shapeSlash (l : List Char) : Bool :=
  let p1 := splitDigits 2 l
  match p1.1, p1.2 with
  | [], _ => false
  | _ :: _, '/' :: r2 =>
    let p2 := splitDigits 2 r2
    match p2.1, p2.2 with
    | [], _ => false
    | _ :: _, '/' :: r4 =>
      let p3 := splitDigits 4 r4
      p3.1.length == 4 && p3.2.isEmpty
    | _, _ => false
  | _, _ => false

/-- Model of `parse(s, 'MM/dd/yyyy', ref)` on a string of slash shape. -/
def parseSlashDate (l : List Char) : Option DateT :=
  let p1 := splitDigits 2 l
  match p1.2 with
  | '/' :: r2 =>
    let p2 := splitDigits 2 r2
    match p2.2 with
    | '/' :: r4 =>
      let p3 := splitDigits 4 r4
      let m := digitsToNat p1.1
      let d := digitsToNat p2.1
      if p1.1 ≠ [] ∧ p2.1 ≠ [] ∧ p3.1.length = 4 ∧ p3.2 = [] ∧
          1 ≤ m ∧ m ≤ 12 ∧ 1 ≤ d ∧ d ≤ 31 then
        some ⟨m, d, digitsToNat p3.1⟩
      else none
    | _ => none
  | _ => none

/-- The anchored shape test `/^\d{4}-\d{2}-\d{2}$/` of line 266. -/
def shapeIso (l : List Char) : Bool :=
  let p1 := splitDigits 4 l
  match p1.2 with
  | '-' :: r2 =>
    let p2 := splitDigits 2 r2
    match p2.2 with
    | '-' :: r4 =>
      let p3 := splitDigits 2 r4
      p1.1.length == 4 && p2.1.length == 2 && p3.1.length == 2 && p3.2.isEmpty
    | _ => false
  | _ => false

/-- Model of `parse(s, 'yyyy-MM-dd', ref)` on a string of ISO shape. -/
def parseIsoDate (l : List Char) : Option DateT :=
  let p1 := splitDigits 4 l
  match p1.2 with
  | '-' :: r2 =>
    let p2 := splitDigits 2 r2
    match p2.2 with
    | '-' :: r4 =>
      let p3 := splitDigits 2 r4
      let m := digitsToNat p2.1
      let d := digitsToNat p3.1
      if p1.1.length = 4 ∧ p2.1.length = 2 ∧ p3.1.length = 2 ∧ p3.2 = [] ∧
          1 ≤ m ∧ m ≤ 12 ∧ 1 ≤ d ∧ d ≤ 31 then
        some ⟨m, d, digitsToNat p1.1⟩
      else none
    | _ => none
  | _ => none

/-- The per-candidate parsing of lines 261-295 on the trimmed candidate:
slash shape, else ISO shape, else the month-name form with or without a
comma (the nested `'d MMMM'` retry is dead code, because the library
returns an invalid date instead of throwing). -/
def tryParseCandidate (dateStr : String) : Option DateT :=
  if shapeSlash dateStr.data then parseSlashDate dateStr.data
  else if shapeIso dateStr.data then parseIsoDate dateStr.data
  else if includes dateStr (",") then parseMonthDayYear true dateStr
  else parseMonthDayYear false dateStr

/-- `format(d, 'MMMM d, yyyy')`: the canonical rendering. -/
def renderDate (d : DateT) : String :=
  monthNamesEn.getD (d.month - 1) ("") ++ " " ++ Nat.repr d.day ++ ", " ++
    Nat.repr d.year

/-- Compiled form of the labeled-field regex
`/Label[\s\r\n]*:?[\s\r\n]*([^\r\n]+)/i`: find the first occurrence of the
label whose following optional whitespace, optional colon and whitespace
are followed by at least one non-newline character; the capture runs to
the end of the line.  (An occurrence followed only by whitespace would let
the regex capture bare whitespace; such a capture trims to a string no
date format parses, so folding it into no-match preserves the extracted
date.) -/
def labeledCandidateAux (label : List Char) : List Char → Option (List Char)
  | [] => none
  | c :: cs =>
    if leadsWith label ((c :: cs).map Char.toLower) then
      let r1 := (c :: cs).drop label.length
      let r2 := r1.dropWhile isWsChar
      let r3 := match r2 with
        | ':' :: t => t
        | _ => r2
      let r4 := r3.dropWhile isWsChar
      match r4.takeWhile (fun ch => !(ch == '\r' || ch == '\n')) with
      | [] => labeledCandidateAux label cs
      | cap => some cap
    else labeledCandidateAux label cs

/-- The labeled-field candidate for a label such as "Petsa" or "Date". -/
def labeledCandidate (label text : String) : Option String :=
  match labeledCandidateAux (lowerStr label).data text.data with
  | some cap => some (String.mk cap)
  | none => none

/-- Left-to-right scan: the first position where `matchAt` succeeds. -/
def scanForP {α : Type} (matchAt : List Char → Option α) : List Char → Option α
  | [] => matchAt []
  | c :: cs =>
    match matchAt (c :: cs) with
    | some r => some r
    | none => scanForP matchAt cs

/-- Anchored match of `/\d{1,2}\/\d{1,2}\/\d{4}/`, returning the matched
characters. -/
def slashMatchAt (l : List Char) : Option (List Char) :=
  let p1 := splitDigits 2 l
  match p1.1, p1.2 with
  | [], _ => none
  | d1 :: ds1, '/' :: r2 =>
    let p2 := splitDigits 2 r2
    match p2.1, p2.2 with
    | [], _ => none
    | d2 :: ds2, '/' :: r4 =>
      let p3 := splitDigits 4 r4
      if p3.1.length == 4 then
        some ((d1 :: ds1) ++ '/' :: (d2 :: ds2) ++ '/' :: p3.1)
      else none
    | _, _ => none
  | _, _ => none

/-- Anchored match of `/\d{4}-\d{2}-\d{2}/`, returning the matched
characters. -/
def isoMatchAt (l : List Char) : Option (List Char) :=
  let p1 := splitDigits 4 l
  match p1.2 with
  | '-' :: r2 =>
    let p2 := splitDigits 2 r2
    match p2.2 with
    | '-' :: r4 =>
      let p3 := splitDigits 2 r4
      if p1.1.length == 4 && p2.1.length == 2 && p3.1.length == 2 then
        some (p1.1 ++ '-' :: p2.1 ++ '-' :: p3.1)
      else none
    | _ => none
  | _ => none

/-- The month-name alternation of the bilingual date pattern of lines
251 and 306, in source order. -/
def tagalogMonthAlts : List String :=
  ["Abril", "April", "Mayo", "May", "Hunyo", "June", "Hulyo", "July",
   "Agosto", "August", "Setyembre", "September", "Oktubre", "October",
   "Nobyembre", "November", "Disyembre", "December"]

/-- After a month alternative, match `[\s\r\n]+\d{1,2},?[\s\r\n]+\d{4}`;
returns the consumed characters, the day digits and the year digits. -/
def monthRestAt (r : List Char) : Option (List Char × List Char × List Char) :=
  match r.takeWhile isWsChar with
  | [] => none
  | ws1 =>
    let r2 := r.dropWhile isWsChar
    let pd := splitDigits 2 r2
    match pd.1 with
    | [] => none
    | dds =>
      let cr := match pd.2 with
        | ',' :: t => ([','], t)
        | other => (([] : List Char), other)
      match cr.2.takeWhile isWsChar with
      | [] => none
      | ws2 =>
        let r5 := cr.2.dropWhile isWsChar
        let py := splitDigits 4 r5
        if py.1.length == 4 then
          some (ws1 ++ dds ++ cr.1 ++ ws2 ++ py.1, dds, py.1)
        else none

/-- Anchored match of the bilingual month-name date pattern: try each
alternative in order (case-insensitively), keeping the original-case token
from the text; returns (whole match, month token, day digits, year
digits). -/
def monthAltsAt : List String → List Char →
    Option (List Char × List Char × List Char × List Char)
  | [], _ => none
  | alt :: rest, l =>
    if leadsWith (lowerStr alt).data (l.map Char.toLower) then
      match monthRestAt (l.drop alt.data.length) with
      | some (consumed, dds, yds) =>
        some ((l.take alt.data.length) ++ consumed, l.take alt.data.length, dds, yds)
      | none => monthAltsAt rest l
    else monthAltsAt rest l

/-- The month-name date matcher with the full alternation. -/
def monthMatchAt (l : List Char) :
    Option (List Char × List Char × List Char × List Char) :=
  monthAltsAt tagalogMonthAlts l

/-- The ordered date-pattern candidates of `extractTagalogDocumentInfo`
(lines 245-252): the labeled Petsa and Date fields, a slash date, an ISO
date, and the bilingual month-name long form (no capture group there, so
the whole match is the candidate). -/
def tagalogDateCandidates (text : String) : List (Option String) :=
  [labeledCandidate ("Petsa") text,
   labeledCandidate ("Date") text,
   Option.map String.mk (scanForP slashMatchAt text.data),
   Option.map String.mk (scanForP isoMatchAt text.data),
   Option.map (fun r => String.mk r.1) (scanForP monthMatchAt text.data)]

/-- Lines 254-301: each matched candidate is trimmed and parsed in pattern
order; the first successfully parsed candidate wins. -/
def firstParsedDate : List (Option String) → Option DateT
  | [] => none
  | none :: rest => firstParsedDate rest
  | some s :: rest =>
    match tryParseCandidate (jsTrim s) with
    | some d => some d
    | none => firstParsedDate rest

/-- Lines 303-328: the fallback month-name search with capture groups; the
candidate is rebuilt as `"month day, year"` from the first
whitespace-separated token of the match and the two captures, then parsed
with the comma format. -/
def fallbackMonthDate (text : String) : Option DateT :=
  match scanForP monthMatchAt text.data with
  | none => none
  | some (_, tok, dds, yds) =>
    parseMonthDayYear true (String.mk (tok ++ ' ' :: (dds ++ ',' :: ' ' :: yds)))

/-- The submission-date extraction of `extractTagalogDocumentInfo`, as a
function of the document text and of the preset default `today` (the
formatted processing date): the first loop's parsed date if any, then the
fallback block whenever the date still equals the default. -/
def extractTagalogSubmissionDate (text today : String) : String :=
  let base := match firstParsedDate (tagalogDateCandidates text) with
    | some d => renderDate d
    | none => today
  if base = today then
    match fallbackMonthDate text with
    | some d => renderDate d
    | none => base
  else base

/-- Claim C6 evaluation: on "Petsa: Abril 2, 2025" the labeled candidate
"Abril 2, 2025" is found, but the parse library recognizes only English
month names, so every candidate is discarded and the submission date falls
back to the processing date; the identical text with the English month
name "April" does produce the canonical date, isolating the failure to the
missing Tagalog month-name normalization. -/
theorem tagalog_month_date_falls_back :
    extractTagalogSubmissionDate ("Petsa: Abril 2, 2025") ("PROCESSING-DATE") =
      "PROCESSING-DATE" ∧
    extractTagalogSubmissionDate ("Petsa: April 2, 2025") ("PROCESSING-DATE") =
      "April 2, 2025" ∧
    labeledCandidate ("Petsa") ("Petsa: Abril 2, 2025") = some ("Abril 2, 2025") := by
  refine ⟨by decide, by decide, by decide⟩

end Salaysay
